import Mathlib

/-!
Verification of the provider-abstraction and credential-management core of the
DDM document-summarizer repository (`src/ai_providers.py`, `src/api_manager.py`).

Modelling conventions:
* Python byte strings and credential strings are modelled as `List Nat`
  (each element a byte value `< 256`); identifying a Python `str` with its
  UTF-8 byte sequence, `str.encode` / `bytes.decode` become the identity.
* Document text handled by the provider adapters is modelled as `List Char`
  (Python `len` and slicing count code points, as `List Char` does).
* The network clients used by the adapters are modelled by an oracle function
  `call : String → List Char → Except (List Char) (List Char)` taking the model
  id and the outbound user-facing prompt text, and returning either the reply
  text or the message of the raised SDK exception.
* File-system effects (`_save_config`) only re-serialise the in-memory
  document, so store operations are modelled as pure `Config → Config`.
-/

namespace DocSum

/-! ### Base64, modelling `base64.b64encode` / `base64.b64decode`
(used by `APIKeyManager._encode_key` / `_decode_key`, `src/api_manager.py:54-60`). -/

/-- Byte value of the base64-alphabet character with sextet index `i`
(`A`-`Z`, `a`-`z`, `0`-`9`, `+`, `/`). -/
def b64char (i : Nat) : Nat :=
  if i < 26 then 65 + i
  else if i < 52 then 71 + i
  else if i < 62 then i - 4
  else if i = 62 then 43
  else 47

/-- Sextet index of the byte `c` in the base64 alphabet, if `c` is an
alphabet byte; `none` otherwise. -/
def b64val (c : Nat) : Option Nat :=
  if 65 ≤ c ∧ c ≤ 90 then some (c - 65)
  else if 97 ≤ c ∧ c ≤ 122 then some (c - 71)
  else if 48 ≤ c ∧ c ≤ 57 then some (c + 4)
  else if c = 43 then some 62
  else if c = 47 then some 63
  else none

/-- `base64.b64encode`: byte list to base64 text (as ASCII byte list), three
input bytes per four output characters, `=` (byte 61) padding. -/
def b64encode : List Nat → List Nat
  | [] => []
  | [a] => [b64char (a / 4), b64char (a % 4 * 16), 61, 61]
  | [a, b] => [b64char (a / 4), b64char (a % 4 * 16 + b / 16), b64char (b % 16 * 4), 61]
  | a :: b :: c :: rest =>
      b64char (a / 4) :: b64char (a % 4 * 16 + b / 16) ::
        b64char (b % 16 * 4 + c / 64) :: b64char (c % 64) :: b64encode rest

/-- Core of `base64.b64decode` on an input already filtered to alphabet and
padding bytes: decodes groups of four characters, accepting `=` padding only
at the end, and fails (`none`, modelling the raised `binascii.Error`) when the
input length is not a multiple of four or a non-final group carries padding. -/
def b64decodeRaw : List Nat → Option (List Nat)
  | [] => some []
  | c1 :: c2 :: c3 :: c4 :: rest =>
      let tl := b64decodeRaw rest
      match b64val c1, b64val c2 with
      | some s1, some s2 =>
          if c3 = 61 then
            if c4 = 61 ∧ rest = [] then some [s1 * 4 + s2 / 16] else none
          else
            match b64val c3 with
            | some s3 =>
                if c4 = 61 then
                  if rest = [] then some [s1 * 4 + s2 / 16, s2 % 16 * 16 + s3 / 4] else none
                else
                  match b64val c4, tl with
                  | some s4, some tail =>
                      some ((s1 * 4 + s2 / 16) :: (s2 % 16 * 16 + s3 / 4) ::
                        (s3 % 4 * 64 + s4) :: tail)
                  | _, _ => none
            | none => none
      | _, _ => none
  | _ => none

/-- A byte kept by `b64decode`'s pre-filter: alphabet bytes and `=`.
(Python's `b64decode` with `validate=False` discards all other bytes
before the padding check.) -/
def isB64Byte (c : Nat) : Bool := (b64val c).isSome || c == 61

/-- `base64.b64decode` (default `validate=False`): discard foreign bytes,
then decode; `none` models the raised `binascii.Error`. -/
def b64decode (s : List Nat) : Option (List Nat) :=
  b64decodeRaw (s.filter isB64Byte)

/-! ### Credential store, modelling `APIKeyManager` (`src/api_manager.py`).
A Python `dict` is modelled as an association list with insertion-order
iteration: updating an existing key keeps its position, a new key is appended,
deletion removes the key's entry. -/

/-- One value of the `providers` mapping, as written by `add_provider`
(`src/api_manager.py:65-68`): the base64-encoded credential and the enabled
flag.  (The source stores exactly these two fields.) -/
structure CredentialRecord where
  api_key : List Nat
  enabled : Bool
deriving DecidableEq

/-- The in-memory configuration document `self.config`:
`{'providers': {...}, 'default_provider': ...}`. -/
structure Config where
  providers : List (String × CredentialRecord)
  default_provider : Option String
deriving DecidableEq

/-- `_default_config` (`src/api_manager.py:42-47`). -/
def defaultConfig : Config := { providers := [], default_provider := none }

/-- Persisted-file states relevant to `_load_config`: the file may be absent,
present but not valid JSON (`json.load` raises), or present and valid. -/
inductive FileState where
  | missing : FileState
  | invalid : FileState
  | valid : Config → FileState
deriving DecidableEq

/-- `_load_config` (`src/api_manager.py:32-40`): a missing file or a parse
failure (the bare `except`) yields the default document; the function is
total — no error escapes. -/
def loadConfig : FileState → Config
  | FileState.missing => defaultConfig
  | FileState.invalid => defaultConfig
  | FileState.valid c => c

/-- Python `dict` assignment `d[k] = v`: replace the value in place if the key
is present, otherwise append a new entry. -/
def dictInsert (l : List (String × CredentialRecord)) (k : String) (v : CredentialRecord) :
    List (String × CredentialRecord) :=
  match l with
  | [] => [(k, v)]
  | (k', v') :: rest => if k' = k then (k, v) :: rest else (k', v') :: dictInsert rest k v

/-- `add_provider` (`src/api_manager.py:62-73`): encode the key, upsert the
record `{'api_key': encoded, 'enabled': True}`, and point the default at this
provider when `set_as_default` is given or no default exists.  The identifier
is used verbatim — the source applies no case normalization. -/
def addProvider (c : Config) (provider_name : String) (api_key : List Nat)
    (set_as_default : Bool) : Config :=
  let encoded := b64encode api_key
  let ps := dictInsert c.providers provider_name { api_key := encoded, enabled := true }
  let d := if set_as_default = true ∨ c.default_provider = none then some provider_name
           else c.default_provider
  { providers := ps, default_provider := d }

/-- `remove_provider` (`src/api_manager.py:75-85`): delete the entry if
present; if it was the default, promote `remaining[0]` (the first remaining
provider in iteration order) or clear the default. -/
def removeProvider (c : Config) (provider_name : String) : Config :=
  if (c.providers.lookup provider_name).isSome then
    let ps := c.providers.filter (fun p => p.1 != provider_name)
    let d := if c.default_provider = some provider_name then (ps.head?).map Prod.fst
             else c.default_provider
    { providers := ps, default_provider := d }
  else c

/-- `get_api_key` (`src/api_manager.py:87-96`): resolve `None` to the default
provider; `if provider_name and provider_name in providers` — note the Python
truthiness test, which also rejects the empty string; decode the stored key.
The decode is unguarded, so a `binascii` failure propagates: `Except.error ()`
models the raised exception, `Except.ok none` the `return None` paths. -/
def getApiKey (c : Config) (provider_name : Option String) : Except Unit (Option (List Nat)) :=
  let n := match provider_name with
           | none => c.default_provider
           | some s => some s
  match n with
  | none => Except.ok none
  | some s =>
      if s = "" then Except.ok none
      else
        match c.providers.lookup s with
        | none => Except.ok none
        | some r =>
            match b64decode r.api_key with
            | some k => Except.ok (some k)
            | none => Except.error ()

/-- `get_default_provider` (`src/api_manager.py:98-100`). -/
def getDefaultProvider (c : Config) : Option String := c.default_provider

/-- `set_default_provider` (`src/api_manager.py:102-106`): only updates when
the identifier has a stored record. -/
def setDefaultProvider (c : Config) (provider_name : String) : Config :=
  if (c.providers.lookup provider_name).isSome then
    { c with default_provider := some provider_name }
  else c

/-- `_get_key_preview` (`src/api_manager.py:120-128`): decode, then
`key[:8] + "..." + key[-4:]` for keys longer than 12 characters, else
`key[:4] + "..."`; a decode failure is caught and masked as `"***"`.
Byte 46 is `.`, byte 42 is `*`. -/
def getKeyPreview (encoded_key : List Nat) : List Nat :=
  match b64decode encoded_key with
  | some key =>
      if key.length > 12 then key.take 8 ++ [46, 46, 46] ++ key.drop (key.length - 4)
      else key.take 4 ++ [46, 46, 46]
  | none => [42, 42, 42]

/-- One element of the list returned by `list_providers`
(`src/api_manager.py:108-118`). -/
structure ProviderEntry where
  name : String
  enabled : Bool
  isDefault : Bool
  apiKeyPreview : List Nat
deriving DecidableEq

/-- `list_providers` (`src/api_manager.py:108-118`). -/
def listProviders (c : Config) : List ProviderEntry :=
  c.providers.map fun p =>
    { name := p.1
      enabled := p.2.enabled
      isDefault := decide (c.default_provider = some p.1)
      apiKeyPreview := getKeyPreview p.2.api_key }

/-- `has_any_provider` (`src/api_manager.py:130-132`). -/
def hasAnyProvider (c : Config) : Bool := decide (0 < c.providers.length)

/-- `validate_provider` (`src/api_manager.py:134-137`); every stored record
carries an `api_key` field, so the `'api_key' in record` check reduces to
record existence. -/
def validateProvider (c : Config) (provider_name : String) : Bool :=
  (c.providers.lookup provider_name).isSome

/-- A store operation, used to describe the states reachable from the empty
document by any call sequence. -/
inductive StoreOp where
  | add : String → List Nat → Bool → StoreOp
  | remove : String → StoreOp
  | setDefault : String → StoreOp

/-- Apply one store operation. -/
def applyOp (c : Config) : StoreOp → Config
  | StoreOp.add n k b => addProvider c n k b
  | StoreOp.remove n => removeProvider c n
  | StoreOp.setDefault n => setDefaultProvider c n

/-- The configuration reached from the empty document by a call sequence. -/
def runOps (ops : List StoreOp) : Config := ops.foldl applyOp defaultConfig

/-- The `ConfigDocument` invariant: `default_provider`, if set, is a key
present in the providers mapping. -/
def DefaultValid (c : Config) : Prop :=
  ∀ d, c.default_provider = some d → (c.providers.lookup d).isSome = true

/-! ### Provider adapters, modelling `src/ai_providers.py`.
Each adapter's `summarize` truncates to its character budget, embeds the text
in its prompt, performs one network call, and wraps any failure in a
provider-tagged error.  The network client is abstracted by an oracle
`call model payload`; the fixed request parameters (temperature, max_tokens,
and for the chat backends the constant system instruction `sysInstruction`)
do not vary per call and are not part of the payload. -/

/-- The five backends: `GeminiProvider`, `OpenAIProvider`, `ClaudeProvider`,
`GroqProvider`, `GrokProvider`. -/
inductive Backend where
  | gemini | openai | claude | groq | grok
deriving DecidableEq

/-- Each adapter's `max_chars` character budget (`src/ai_providers.py:70`,
`129`, `196`, `264`, `333`). -/
def maxChars : Backend → Nat
  | Backend.gemini => 500000
  | Backend.openai => 100000
  | Backend.claude => 400000
  | Backend.groq => 24000
  | Backend.grok => 100000

/-- The truncation marker appended when a text exceeds the budget
(identical in all five adapters). -/
def truncMarker : List Char := "\n\n[Text truncated due to length...]".data

/-- The text each adapter actually sends: `text[:max_chars]` plus the marker
when over budget, the text unchanged otherwise (e.g.
`src/ai_providers.py:70-72` for Gemini, `264-266` for Groq). -/
def sentText (b : Backend) (text : List Char) : List Char :=
  if text.length > maxChars b then text.take (maxChars b) ++ truncMarker
  else text

/-- The constant system instruction of the OpenAI, Groq and Grok adapters. -/
def sysInstruction : List Char :=
  "You are a helpful assistant that creates clear, concise summaries of documents. Provide a well-structured summary with key points and main ideas.".data

/-- The text placed before the document in each adapter's outbound user
payload: Gemini and Claude fold the instruction into the single prompt
(`src/ai_providers.py:74-79`, `208-213`); the chat backends send
`"Please provide a comprehensive summary of the following text:\n\n"`
as the user message (the instruction going into the system role). -/
def promptHead : Backend → List Char
  | Backend.gemini =>
      "You are a helpful assistant that creates clear, concise summaries of documents.\nProvide a well-structured summary with key points and main ideas.\n\nPlease provide a comprehensive summary of the following text:\n\n".data
  | Backend.claude =>
      "You are a helpful assistant that creates clear, concise summaries of documents.\nProvide a well-structured summary with key points and main ideas.\n\nPlease provide a comprehensive summary of the following text:\n\n".data
  | _ => "Please provide a comprehensive summary of the following text:\n\n".data

/-- The provider tag each adapter's `except` clause puts in front of the
underlying message (`raise Exception(f"... API error: {str(e)}")`). -/
def errTag : Backend → List Char
  | Backend.gemini => "Gemini API error: ".data
  | Backend.openai => "OpenAI API error: ".data
  | Backend.claude => "Claude API error: ".data
  | Backend.groq => "Groq API error: ".data
  | Backend.grok => "Grok API error: ".data

/-- `summarize` of each adapter (`src/ai_providers.py:68-87` for Gemini and
correspondingly for the others): truncate, build the prompt, perform a single
network call on `model`, return its reply, and wrap a failure in the
provider-tagged error.  No adapter makes a second call. -/
def summarize (b : Backend) (call : String → List Char → Except (List Char) (List Char))
    (model : String) (text : List Char) : Except (List Char) (List Char) :=
  match call model (promptHead b ++ sentText b text) with
  | Except.ok r => Except.ok r
  | Except.error e => Except.error (errTag b ++ e)

/-! ### Provider registry and factory (`src/ai_providers.py:372-408`). -/

/-- The `PROVIDERS` registry mapping identifier to adapter type. -/
def PROVIDERS : List (String × Backend) :=
  [("gemini", Backend.gemini), ("openai", Backend.openai), ("claude", Backend.claude),
   ("groq", Backend.groq), ("grok", Backend.grok)]

/-- Python `str.lower()` (identifiers here are ASCII): lowercase every
character. -/
def pyLower (s : String) : String := String.mk (s.data.map Char.toLower)

/-- Each adapter's `DEFAULT_MODEL` class attribute. -/
def defaultModel : Backend → String
  | Backend.gemini => "gemini-2.5-pro"
  | Backend.openai => "gpt-4o"
  | Backend.claude => "claude-sonnet-4-20250514"
  | Backend.groq => "llama-3.3-70b-versatile"
  | Backend.grok => "grok-2-latest"

/-- A constructed adapter instance: `AIProvider.__init__` stores the key and
`model or self.DEFAULT_MODEL`. -/
structure ProviderInstance where
  backend : Backend
  api_key : List Nat
  model : String
deriving DecidableEq

/-- `get_provider` (`src/ai_providers.py:382-387`): the factory lowercases the
identifier before the registry lookup and returns `None` for unknown names. -/
def get_provider (provider_name : String) (api_key : List Nat) (model : Option String) :
    Option ProviderInstance :=
  match PROVIDERS.lookup (pyLower provider_name) with
  | some b =>
      some { backend := b, api_key := api_key
             model := match model with
                      | none => defaultModel b
                      | some m => if m = "" then defaultModel b else m }
  | none => none

/-! ### Concrete fixtures used by the counterexamples and witnesses. -/

/-- A network oracle that fails exactly on the model id `gemini-2.5-pro` and
succeeds on every other model — in particular on every candidate fallback
model, such as `gemini-2.5-flash`. -/
def geminiFailPrimary : String → List Char → Except (List Char) (List Char) :=
  fun m _ => if m = "gemini-2.5-pro" then Except.error "boom".data
             else Except.ok "summary of the text".data

/-- Store state after `add_provider("p1","k1",set_as_default=True)` then
`add_provider("p2","k2",set_as_default=False)` (keys are the byte strings
`k1`, `k2`). -/
def c2state2 : Config :=
  addProvider (addProvider defaultConfig "p1" [107, 49] true) "p2" [107, 50] false

/-- ... then `remove_provider("p1")`. -/
def c2state3 : Config := removeProvider c2state2 "p1"

/-- ... then `remove_provider("p2")`. -/
def c2state4 : Config := removeProvider c2state3 "p2"

/-- A 20-byte credential. -/
def key20 : List Nat :=
  [65, 66, 67, 68, 69, 70, 71, 72, 73, 74, 75, 76, 77, 78, 79, 80, 81, 82, 83, 84]

/-- A stored record whose `api_key` field (`"ab"`, bytes 97 98) is not valid
base64: two data characters cannot form a base64 group. -/
def badRecord : CredentialRecord := { api_key := [97, 98], enabled := true }

/-- A configuration holding `badRecord` under provider `"x"`. -/
def badConfig : Config := { providers := [("x", badRecord)], default_provider := some "x" }

/-! ### Helper lemmas -/

theorem b64val_b64char (i : Nat) (hi : i < 64) : b64val (b64char i) = some i := by
  have h : ∀ j : Fin 64, b64val (b64char j.val) = some j.val := by decide
  exact h ⟨i, hi⟩

theorem b64char_ne_61 (i : Nat) : b64char i ≠ 61 := by
  unfold b64char
  split_ifs <;> omega

theorem isB64Byte_b64char (i : Nat) (hi : i < 64) : isB64Byte (b64char i) = true := by
  simp [isB64Byte, b64val_b64char i hi]

theorem b64decodeRaw_b64encode :
    ∀ bs : List Nat, (∀ b ∈ bs, b < 256) → b64decodeRaw (b64encode bs) = some bs
  | [], _ => rfl
  | [a], h => by
      have ha : a < 256 := h a (by simp)
      have h1 := b64val_b64char (a / 4) (by omega)
      have h2 := b64val_b64char (a % 4 * 16) (by omega)
      simp only [b64encode, b64decodeRaw, h1, h2, if_true, Option.some.injEq, List.cons.injEq,
        and_true]
      omega
  | [a, b], h => by
      have ha : a < 256 := h a (by simp)
      have hb : b < 256 := h b (by simp)
      have h1 := b64val_b64char (a / 4) (by omega)
      have h2 := b64val_b64char (a % 4 * 16 + b / 16) (by omega)
      have h3 := b64val_b64char (b % 16 * 4) (by omega)
      simp only [b64encode, b64decodeRaw, h1, h2, h3, b64char_ne_61, if_false,
        if_pos rfl, reduceIte, Option.some.injEq, List.cons.injEq, and_true]
      omega
  | a :: b :: c :: d :: rest, h => by
      have ha : a < 256 := h a (by simp)
      have hb : b < 256 := h b (by simp)
      have hc : c < 256 := h c (by simp)
      have ih := b64decodeRaw_b64encode (d :: rest) (fun x hx => h x (by simp [hx]))
      have h1 := b64val_b64char (a / 4) (by omega)
      have h2 := b64val_b64char (a % 4 * 16 + b / 16) (by omega)
      have h3 := b64val_b64char (b % 16 * 4 + c / 64) (by omega)
      have h4 := b64val_b64char (c % 64) (by omega)
      simp only [b64encode, b64decodeRaw, h1, h2, h3, h4, b64char_ne_61, if_false, ih,
        Option.some.injEq, List.cons.injEq, and_true, reduceIte]
      omega
  | [a, b, c], h => by
      have ha : a < 256 := h a (by simp)
      have hb : b < 256 := h b (by simp)
      have hc : c < 256 := h c (by simp)
      have h1 := b64val_b64char (a / 4) (by omega)
      have h2 := b64val_b64char (a % 4 * 16 + b / 16) (by omega)
      have h3 := b64val_b64char (b % 16 * 4 + c / 64) (by omega)
      have h4 := b64val_b64char (c % 64) (by omega)
      simp only [b64encode, b64decodeRaw, h1, h2, h3, h4, b64char_ne_61, if_false,
        Option.some.injEq, List.cons.injEq, and_true, reduceIte]
      omega

theorem mem_b64encode_isB64Byte :
    ∀ bs : List Nat, (∀ b ∈ bs, b < 256) → ∀ x ∈ b64encode bs, isB64Byte x = true
  | [], _ => by intro x hx; simp [b64encode] at hx
  | [a], h => by
      have ha : a < 256 := h a (by simp)
      intro x hx
      simp only [b64encode, List.mem_cons, List.not_mem_nil, or_false] at hx
      rcases hx with rfl | rfl | rfl | rfl
      · exact isB64Byte_b64char _ (by omega)
      · exact isB64Byte_b64char _ (by omega)
      · decide
      · decide
  | [a, b], h => by
      have ha : a < 256 := h a (by simp)
      have hb : b < 256 := h b (by simp)
      intro x hx
      simp only [b64encode, List.mem_cons, List.not_mem_nil, or_false] at hx
      rcases hx with rfl | rfl | rfl | rfl
      · exact isB64Byte_b64char _ (by omega)
      · exact isB64Byte_b64char _ (by omega)
      · exact isB64Byte_b64char _ (by omega)
      · decide
  | a :: b :: c :: rest, h => by
      have ha : a < 256 := h a (by simp)
      have hb : b < 256 := h b (by simp)
      have hc : c < 256 := h c (by simp)
      have ih := mem_b64encode_isB64Byte rest (fun x hx => h x (by simp [hx]))
      intro x hx
      simp only [b64encode, List.mem_cons] at hx
      rcases hx with rfl | rfl | rfl | rfl | hx
      · exact isB64Byte_b64char _ (by omega)
      · exact isB64Byte_b64char _ (by omega)
      · exact isB64Byte_b64char _ (by omega)
      · exact isB64Byte_b64char _ (by omega)
      · exact ih x hx

theorem b64encode_filter (bs : List Nat) (h : ∀ b ∈ bs, b < 256) :
    (b64encode bs).filter isB64Byte = b64encode bs :=
  List.filter_eq_self.mpr (mem_b64encode_isB64Byte bs h)

/-- Round trip of the credential encoding: decoding the encoded form of any
byte string returns it exactly. -/
theorem b64decode_b64encode (bs : List Nat) (h : ∀ b ∈ bs, b < 256) :
    b64decode (b64encode bs) = some bs := by
  rw [b64decode, b64encode_filter bs h]
  exact b64decodeRaw_b64encode bs h

theorem lookup_dictInsert_self (l : List (String × CredentialRecord)) (k : String)
    (v : CredentialRecord) : (dictInsert l k v).lookup k = some v := by
  induction l with
  | nil => simp [dictInsert]
  | cons p rest ih =>
      obtain ⟨k', v'⟩ := p
      by_cases hk : k' = k
      · simp [dictInsert, hk]
      · have hb : (k == k') = false := beq_eq_false_iff_ne.mpr (Ne.symm hk)
        simp [dictInsert, hk, List.lookup, hb, ih]

theorem lookup_dictInsert_ne (l : List (String × CredentialRecord)) (k d : String)
    (v : CredentialRecord) (hd : d ≠ k) : (dictInsert l k v).lookup d = l.lookup d := by
  have hbd : (d == k) = false := beq_eq_false_iff_ne.mpr hd
  induction l with
  | nil => simp [dictInsert, List.lookup, hbd]
  | cons p rest ih =>
      obtain ⟨k', v'⟩ := p
      by_cases hk : k' = k
      · subst hk
        simp [dictInsert, List.lookup, hbd]
      · by_cases hdk : d = k'
        · have hb : (d == k') = true := beq_iff_eq.mpr hdk
          simp [dictInsert, hk, List.lookup, hb]
        · have hb : (d == k') = false := beq_eq_false_iff_ne.mpr hdk
          simp [dictInsert, hk, List.lookup, hb, ih]

theorem lookup_filter_ne (l : List (String × CredentialRecord)) (n d : String) (hd : d ≠ n) :
    (l.filter (fun p => p.1 != n)).lookup d = l.lookup d := by
  induction l with
  | nil => simp
  | cons p rest ih =>
      obtain ⟨k, v⟩ := p
      by_cases hk : k = n
      · subst hk
        have hb : (d == k) = false := beq_eq_false_iff_ne.mpr hd
        simp [List.filter, List.lookup, hb, ih]
      · by_cases hdk : d = k
        · have hb : (d == k) = true := beq_iff_eq.mpr hdk
          have hbk : (k != n) = true := by simp [bne, beq_eq_false_iff_ne.mpr hk]
          simp [List.filter, List.lookup, hb, hbk]
        · have hb : (d == k) = false := beq_eq_false_iff_ne.mpr hdk
          have hbk : (k != n) = true := by simp [bne, beq_eq_false_iff_ne.mpr hk]
          simp [List.filter, List.lookup, hb, hbk, ih]

theorem lookup_head (l : List (String × CredentialRecord)) (p : String × CredentialRecord)
    (h : l.head? = some p) : l.lookup p.1 = some p.2 := by
  cases l with
  | nil => simp at h
  | cons q rest =>
      simp only [List.head?_cons, Option.some.injEq] at h
      subst h
      simp [List.lookup]

theorem lookup_mem (l : List (String × CredentialRecord)) (a : String) (v : CredentialRecord)
    (h : l.lookup a = some v) : (a, v) ∈ l := by
  induction l with
  | nil => simp [List.lookup] at h
  | cons p rest ih =>
      obtain ⟨k, w⟩ := p
      by_cases hk : a = k
      · subst hk
        simp only [List.lookup, beq_self_eq_true, Option.some.injEq] at h
        subst h
        exact List.mem_cons_self _ _
      · have hb : (a == k) = false := beq_eq_false_iff_ne.mpr hk
        rw [List.lookup, hb] at h
        exact List.mem_cons_of_mem _ (ih h)

theorem defaultValid_applyOp (c : Config) (op : StoreOp) (h : DefaultValid c) :
    DefaultValid (applyOp c op) := by
  cases op with
  | add n k b =>
      intro d hd
      simp only [applyOp, addProvider] at hd ⊢
      by_cases hb : b = true ∨ c.default_provider = none
      · rw [if_pos hb] at hd
        cases hd
        exact by simp [lookup_dictInsert_self]
      · rw [if_neg hb] at hd
        by_cases hdn : d = n
        · subst hdn
          simp [lookup_dictInsert_self]
        · rw [lookup_dictInsert_ne _ _ _ _ hdn]
          exact h d hd
  | remove n =>
      intro d hd
      simp only [applyOp, removeProvider] at hd ⊢
      by_cases hmem : (c.providers.lookup n).isSome
      · rw [if_pos hmem] at hd ⊢
        simp only at hd ⊢
        by_cases hdef : c.default_provider = some n
        · rw [if_pos hdef] at hd
          rcases Option.map_eq_some'.mp hd with ⟨p, hp, hfst⟩
          subst hfst
          rw [lookup_head _ _ hp]
          rfl
        · rw [if_neg hdef] at hd
          have hdn : d ≠ n := by
            intro heq
            subst heq
            exact hdef hd
          rw [lookup_filter_ne _ _ _ hdn]
          exact h d hd
      · rw [if_neg hmem] at hd ⊢
        exact h d hd
  | setDefault n =>
      intro d hd
      simp only [applyOp, setDefaultProvider] at hd ⊢
      by_cases hmem : (c.providers.lookup n).isSome
      · rw [if_pos hmem] at hd ⊢
        simp only at hd
        cases hd
        exact hmem
      · rw [if_neg hmem] at hd ⊢
        exact h d hd

theorem defaultValid_foldl (ops : List StoreOp) :
    ∀ c : Config, DefaultValid c → DefaultValid (ops.foldl applyOp c) := by
  induction ops with
  | nil => intro c h; exact h
  | cons op rest ih =>
      intro c h
      exact ih (applyOp c op) (defaultValid_applyOp c op h)

/-- `get_api_key` directly after `add_provider` of the same (non-empty)
identifier decodes the just-encoded credential back to the original. -/
theorem getApiKey_addProvider (s : Config) (n : String) (k : List Nat) (b : Bool)
    (hn : n ≠ "") (hk : ∀ x ∈ k, x < 256) :
    getApiKey (addProvider s n k b) (some n) = Except.ok (some k) := by
  have hl : (dictInsert s.providers n { api_key := b64encode k, enabled := true }).lookup n =
      some { api_key := b64encode k, enabled := true } := lookup_dictInsert_self _ _ _
  simp only [getApiKey, addProvider]
  rw [if_neg hn]
  simp only [hl, b64decode_b64encode k hk]

/-! ### Claims -/

/-- C1 (counterexample): the Gemini adapter does not retry on a fallback
model.  `geminiFailPrimary` fails exactly on the primary model
`gemini-2.5-pro` and succeeds on every other model — in particular on any
designated lighter fallback such as `gemini-2.5-flash` — yet `summarize`
surfaces the primary failure as the terminal error instead of returning the
fallback's successful reply. -/
theorem c1_no_fallback_cex :
    geminiFailPrimary "gemini-2.5-flash" "anything".data = Except.ok "summary of the text".data ∧
    summarize Backend.gemini geminiFailPrimary "gemini-2.5-pro" "some document".data =
      Except.error ("Gemini API error: boom").data := by
  constructor
  · rfl
  · rfl

/-- C1 (amended): every backend's adapter, the Gemini adapter included,
performs a single network call in `summarize` and raises immediately when
that call on the configured model fails; no adapter consults a fallback
model. -/
theorem c1_no_retry (b : Backend) (call : String → List Char → Except (List Char) (List Char))
    (model : String) (text : List Char) (e : List Char)
    (h : call model (promptHead b ++ sentText b text) = Except.error e) :
    summarize b call model text = Except.error (errTag b ++ e) := by
  simp only [summarize, h]

/-- C1 witness: the amended theorem at a concrete failing call. -/
theorem c1_no_retry_witness :
    summarize Backend.gemini (fun _ _ => Except.error "x".data) "m" [] =
      Except.error (errTag Backend.gemini ++ "x".data) :=
  c1_no_retry Backend.gemini (fun _ _ => Except.error "x".data) "m" [] "x".data rfl

/-- C2: from the empty store, `add_provider("p1","k1",set_as_default=True)`
then `add_provider("p2","k2",set_as_default=False)` leaves the default at
`p1`; `remove_provider("p1")` deletes `p1`'s record and promotes the first
remaining provider (`p2`); removing the sole remaining provider clears the
default and makes `has_any_provider()` false. -/
theorem c2_default_promotion :
    c2state2.default_provider = some "p1" ∧
    c2state3.providers.lookup "p1" = none ∧
    c2state3.default_provider = some "p2" ∧
    c2state4.default_provider = none ∧
    hasAnyProvider c2state4 = false := by
  refine ⟨rfl, rfl, rfl, rfl, rfl⟩

/-- C3 (counterexample): the credential store applies no case normalization —
after `add_provider("Groq", k)` the record is found under `"Groq"` but a
query under `"groq"` finds nothing, so the two spellings do not refer to the
same record as the claim states. -/
theorem c3_case_sensitivity_cex :
    getApiKey (addProvider defaultConfig "Groq" [107, 49] true) (some "Groq") =
      Except.ok (some [107, 49]) ∧
    getApiKey (addProvider defaultConfig "Groq" [107, 49] true) (some "groq") =
      Except.ok none := by
  constructor
  · rfl
  · rfl

/-- C3 (amended): credential-store operations use the provider identifier
verbatim as the key — adding under one spelling and querying under the same
spelling round-trips — while only the provider factory `get_provider`
lowercases its argument before the registry lookup, so `"Groq"` and
`"groq"` are interchangeable there. -/
theorem c3_verbatim_keys (s : Config) (n : String) (k : List Nat) (b : Bool) (m : Option String)
    (hn : n ≠ "") (hk : ∀ x ∈ k, x < 256) :
    getApiKey (addProvider s n k b) (some n) = Except.ok (some k) ∧
    get_provider "Groq" k m = get_provider "groq" k m := by
  refine ⟨getApiKey_addProvider s n k b hn hk, ?_⟩
  have h : pyLower "Groq" = pyLower "groq" := by decide
  simp only [get_provider, h]

/-- C3 witness: the amended theorem at a concrete store and key. -/
theorem c3_verbatim_keys_witness :
    getApiKey (addProvider defaultConfig "gq" [107, 49] true) (some "gq") =
      Except.ok (some [107, 49]) ∧
    get_provider "Groq" [107, 49] none = get_provider "groq" [107, 49] none :=
  c3_verbatim_keys defaultConfig "gq" [107, 49] true none (by decide) (by decide)

/-- C4: evaluating `add_provider` shows the stored record is exactly
`{'api_key': encoded, 'enabled': True}` — it carries no model field, and the
function takes no model argument, contradicting the claim (and the in-repo
callers `src/native_app.py:553` and `:1963`, which pass a third positional
model argument and therefore raise `TypeError`). -/
theorem c4_record_fields (s : Config) (n : String) (k : List Nat) (b : Bool) :
    (addProvider s n k b).providers.lookup n =
      some { api_key := b64encode k, enabled := true } := by
  simp only [addProvider]
  exact lookup_dictInsert_self _ _ _

/-- C5 (counterexample): for the 4-byte credential `"abcd"`, the preview
returned for its stored encoding is `"abcd..."` — it begins with the entire
raw credential, so the preview does not avoid containing the raw credential
string. -/
theorem c5_short_key_cex :
    getKeyPreview (b64encode [97, 98, 99, 100]) = [97, 98, 99, 100, 46, 46, 46] := by
  rfl

/-- C5 (amended): the preview of a stored credential longer than 12
characters is its first 8 characters, the `...` separator, and its last 4
characters; a shorter credential falls back to a 4-character-prefix preview.
A credential longer than 15 characters — a 20-character key in particular —
never appears whole in its preview (the fixed 15-character preview is too
short), but a credential of at most 4 characters appears in full in the
fallback preview. -/
theorem c5_preview_shape (key : List Nat) (hk : ∀ x ∈ key, x < 256) :
    getKeyPreview (b64encode key) =
      (if key.length > 12 then key.take 8 ++ [46, 46, 46] ++ key.drop (key.length - 4)
       else key.take 4 ++ [46, 46, 46]) ∧
    (key.length > 15 → ¬ ∃ l r, getKeyPreview (b64encode key) = l ++ (key ++ r)) := by
  have hd := b64decode_b64encode key hk
  refine ⟨?_, ?_⟩
  · simp only [getKeyPreview, hd]
  · intro hlen hex
    obtain ⟨l, r, hlr⟩ := hex
    have hpl : (getKeyPreview (b64encode key)).length = 15 := by
      simp only [getKeyPreview, hd]
      rw [if_pos (by omega)]
      simp only [List.length_append, List.length_take, List.length_drop,
        List.length_cons, List.length_nil]
      omega
    rw [hlr] at hpl
    simp only [List.length_append] at hpl
    omega

/-- C5 witness: the amended theorem at the concrete 20-byte credential. -/
theorem c5_preview_shape_witness :
    getKeyPreview (b64encode key20) =
      (if key20.length > 12 then key20.take 8 ++ [46, 46, 46] ++ key20.drop (key20.length - 4)
       else key20.take 4 ++ [46, 46, 46]) ∧
    (key20.length > 15 → ¬ ∃ l r, getKeyPreview (b64encode key20) = l ++ (key20 ++ r)) :=
  c5_preview_shape key20 (by decide)

/-- C6: for every adapter, a text over the adapter's character budget is sent
as exactly the first `budget` characters plus the truncation marker — never
more — and a text at or under the budget is sent unmodified. -/
theorem c6_truncation (b : Backend) (text : List Char) :
    (text.length > maxChars b →
      sentText b text = text.take (maxChars b) ++ truncMarker ∧
      (sentText b text).length = maxChars b + truncMarker.length) ∧
    (text.length ≤ maxChars b → sentText b text = text) := by
  constructor
  · intro h
    rw [sentText, if_pos h]
    refine ⟨rfl, ?_⟩
    rw [List.length_append, List.length_take]
    omega
  · intro h
    rw [sentText, if_neg (by omega)]

/-- C6 witness: the Groq adapter (budget 24000) on a 24001-character text. -/
theorem c6_truncation_witness :
    sentText Backend.groq (List.replicate 24001 'a') =
      (List.replicate 24001 'a').take 24000 ++ truncMarker ∧
    (sentText Backend.groq (List.replicate 24001 'a')).length = 24000 + truncMarker.length :=
  (c6_truncation Backend.groq (List.replicate 24001 'a')).1
    (by simp only [List.length_replicate, maxChars]; omega)

/-- C7: constructing a store over a persisted file whose contents are not
valid JSON does not raise — `_load_config` substitutes the empty default
document, so `has_any_provider()` is false and the default provider is
absent. -/
theorem c7_invalid_json_recovery :
    hasAnyProvider (loadConfig FileState.invalid) = false ∧
    getDefaultProvider (loadConfig FileState.invalid) = none := by
  refine ⟨rfl, rfl⟩

/-- C8: in every configuration reachable from the empty document by any
sequence of `add_provider`, `remove_provider` and `set_default_provider`
calls, `default_provider` is either absent or a key present in the providers
mapping; and `set_default_provider` is a no-op when the identifier has no
stored record. -/
theorem c8_default_always_present (ops : List StoreOp) :
    DefaultValid (runOps ops) ∧
    ∀ n, ((runOps ops).providers.lookup n).isSome = false →
      setDefaultProvider (runOps ops) n = runOps ops := by
  constructor
  · have h0 : DefaultValid defaultConfig := by
      intro d hd
      simp [defaultConfig] at hd
    exact defaultValid_foldl ops defaultConfig h0
  · intro n hn
    rw [setDefaultProvider, if_neg (by simp [hn])]

/-- C8 witness: the invariant and the no-op at a concrete call sequence. -/
theorem c8_default_always_present_witness :
    DefaultValid (runOps [StoreOp.add "p1" [107] true]) ∧
    setDefaultProvider (runOps [StoreOp.add "p1" [107] true]) "q" =
      runOps [StoreOp.add "p1" [107] true] :=
  ⟨(c8_default_always_present [StoreOp.add "p1" [107] true]).1,
   (c8_default_always_present [StoreOp.add "p1" [107] true]).2 "q" (by decide)⟩

/-- C9: decoding the encoded form of any credential byte string returns
exactly the original, and consequently `get_api_key` after `add_provider`
for the same (non-empty) identifier returns the original credential. -/
theorem c9_roundtrip (k : List Nat) (s : Config) (n : String) (b : Bool)
    (hk : ∀ x ∈ k, x < 256) (hn : n ≠ "") :
    b64decode (b64encode k) = some k ∧
    getApiKey (addProvider s n k b) (some n) = Except.ok (some k) :=
  ⟨b64decode_b64encode k hk, getApiKey_addProvider s n k b hn hk⟩

/-- C9 witness: the round trip at the concrete credential `"abc123"`. -/
theorem c9_roundtrip_witness :
    b64decode (b64encode [97, 98, 99, 49, 50, 51]) = some [97, 98, 99, 49, 50, 51] ∧
    getApiKey (addProvider defaultConfig "groq" [97, 98, 99, 49, 50, 51] true) (some "groq") =
      Except.ok (some [97, 98, 99, 49, 50, 51]) :=
  c9_roundtrip [97, 98, 99, 49, 50, 51] defaultConfig "groq" true (by decide) (by decide)

/-- C10: for a stored record whose encoded `api_key` is not valid base64,
`get_api_key` propagates the decode failure (its decode is unguarded), while
the preview generated through `list_providers` recovers with the masked
placeholder `"***"` (bytes 42 42 42). -/
theorem c10_unguarded_decode (c : Config) (n : String) (r : CredentialRecord)
    (hn : n ≠ "") (hr : c.providers.lookup n = some r) (hd : b64decode r.api_key = none) :
    getApiKey c (some n) = Except.error () ∧
    getKeyPreview r.api_key = [42, 42, 42] ∧
    ∃ e ∈ listProviders c, e.name = n ∧ e.apiKeyPreview = [42, 42, 42] := by
  refine ⟨?_, ?_, ?_⟩
  · simp only [getApiKey]
    rw [if_neg hn]
    simp only [hr, hd]
  · simp only [getKeyPreview, hd]
  · exact ⟨_, List.mem_map_of_mem _ (lookup_mem c.providers n r hr), rfl,
      by simp only [getKeyPreview, hd]⟩

/-- C10 witness: the concrete configuration `badConfig` whose record under
`"x"` holds the invalid encoded key `"ab"`. -/
theorem c10_unguarded_decode_witness :
    getApiKey badConfig (some "x") = Except.error () ∧
    getKeyPreview badRecord.api_key = [42, 42, 42] ∧
    ∃ e ∈ listProviders badConfig, e.name = "x" ∧ e.apiKeyPreview = [42, 42, 42] :=
  c10_unguarded_decode badConfig "x" badRecord (by decide) (by decide) (by decide)

end DocSum
